import Mathlib

/-!
Verification development for the machine-api-provider-nvidia-bmm repository.

The development shallowly embeds the Go sources:
* `pkg/providerid` — the provider-identity codec (`NewProviderID`,
  `ProviderID.String`, `ParseProviderID`);
* `pkg/actuators/machine/actuator.go` — the actuator operations
  `Create`, `Update`, `Exists`, `Delete` and their helpers;
* the machine controller — `reconcileNormal` / `reconcileDelete`.

Go strings are modelled as `List Char`; Go `uuid.UUID` ([16]byte) as a
list of bytes.  Remote calls are modelled by passing the call results in
an environment and recording which calls an operation issued.
-/

/-- Model of a Go string: a list of characters. -/
abbrev GoStr := List Char

/-- Coerce a Lean string literal into the Go-string model. -/
def gostr (s : String) : GoStr := s.data

/-- Go `strings.Split(s, sep)` for a one-character separator.
`Split("", sep) = [""]`, and separators at the ends produce empty
segments, exactly as in Go. -/
def goSplit (sep : Char) : GoStr → List GoStr
  | [] => [[]]
  | c :: rest =>
    match goSplit sep rest with
    | [] => if c = sep then [[], []] else [[c]]
    | s :: ss => if c = sep then [] :: s :: ss else (c :: s) :: ss

/-- Go `strings.TrimPrefix`: drops the given leading part when present,
otherwise returns the string unchanged. -/
def goTrimPfx (p s : GoStr) : GoStr :=
  if p.isPrefixOf s then s.drop p.length else s

/-- ASCII lowering of one character (the case folding Go applies to the
characters of the `urn:uuid:` scheme marker). -/
def asciiLower (c : Char) : Char :=
  if 65 ≤ c.toNat ∧ c.toNat ≤ 90 then Char.ofNat (c.toNat + 32) else c

/-! ## google/uuid: `Parse` and `UUID.String` -/

/-- The value of one hexadecimal digit character, as in the `xvalues`
table of google/uuid: `0`-`9`, `a`-`f` and `A`-`F` are accepted. -/
def hexVal (c : Char) : Option (Fin 16) :=
  if h : 48 ≤ c.toNat ∧ c.toNat ≤ 57 then some ⟨c.toNat - 48, by omega⟩
  else if h : 97 ≤ c.toNat ∧ c.toNat ≤ 102 then some ⟨c.toNat - 87, by omega⟩
  else if h : 65 ≤ c.toNat ∧ c.toNat ≤ 70 then some ⟨c.toNat - 55, by omega⟩
  else none

/-- google/uuid `xtob`: decode two hex digit characters into one byte. -/
def xtob (c1 c2 : Char) : Option (Fin 256) :=
  match hexVal c1, hexVal c2 with
  | some hi, some lo => some ⟨hi.val * 16 + lo.val, by omega⟩
  | _, _ => none

/-- The lowercase hex digit character for a nibble, as emitted by
`encoding/hex` (alphabet `0123456789abcdef`). -/
def hexChar (n : Nat) : Char :=
  if n < 10 then Char.ofNat (48 + n) else Char.ofNat (87 + n)

/-- `encoding/hex.Encode` over a byte list: two lowercase digits per byte. -/
def bytesToHex : List (Fin 256) → GoStr
  | [] => []
  | b :: rest => hexChar (b.val / 16) :: hexChar (b.val % 16) :: bytesToHex rest

/-- Model of Go `uuid.UUID` (a 16-byte array; validity of the length is
carried as a hypothesis where it matters). -/
structure UUID where
  bytes : List (Fin 256)
deriving DecidableEq, Repr

/-- Read `n` bytes (2·n hex characters) from the front of a string,
returning them with the unread remainder. -/
def readHexBytes : Nat → GoStr → Option (List (Fin 256) × GoStr)
  | 0, s => some ([], s)
  | n + 1, c1 :: c2 :: rest =>
    match xtob c1 c2 with
    | none => none
    | some b =>
      match readHexBytes n rest with
      | none => none
      | some (bs, r) => some (b :: bs, r)
  | _ + 1, [] => none
  | _ + 1, [_] => none

/-- Consume one `-` character. -/
def expectDash : GoStr → Option GoStr
  | '-' :: r => some r
  | _ => none

/-- The hyphenated `8-4-4-4-12` layout shared by the 36-, 38- and
45-character cases of google/uuid `Parse`; characters past position 35
are ignored, as in the Go library. -/
def parseCanonical (s : GoStr) : Option UUID := do
  let (g1, s) ← readHexBytes 4 s
  let s ← expectDash s
  let (g2, s) ← readHexBytes 2 s
  let s ← expectDash s
  let (g3, s) ← readHexBytes 2 s
  let s ← expectDash s
  let (g4, s) ← readHexBytes 2 s
  let s ← expectDash s
  let (g5, _) ← readHexBytes 6 s
  pure ⟨g1 ++ g2 ++ g3 ++ g4 ++ g5⟩

/-- google/uuid `Parse`: dispatches on the input length — 36 for the
canonical form, 45 for a `urn:uuid:` wrapper (case-insensitively), 38
for a braced wrapper (only the first character is skipped, as in the Go
code), 32 for bare hex; every other length is rejected. -/
def uuidParse (s : GoStr) : Option UUID :=
  if s.length = 36 then parseCanonical s
  else if s.length = 45 then
    if (s.take 9).map asciiLower = gostr "urn:uuid:" then
      parseCanonical (s.drop 9)
    else none
  else if s.length = 38 then parseCanonical (s.drop 1)
  else if s.length = 32 then
    match readHexBytes 16 s with
    | some (bs, _) => some ⟨bs⟩
    | none => none
  else none

/-- Go `uuid.UUID.String()`: lowercase hex in the `8-4-4-4-12` layout,
mirroring `encodeHex`'s slices `[:4] [4:6] [6:8] [8:10] [10:]`. -/
def UUID.goString (u : UUID) : GoStr :=
  bytesToHex (u.bytes.take 4) ++ '-' ::
  (bytesToHex ((u.bytes.drop 4).take 2) ++ '-' ::
  (bytesToHex ((u.bytes.drop 6).take 2) ++ '-' ::
  (bytesToHex ((u.bytes.drop 8).take 2) ++ '-' ::
  bytesToHex (u.bytes.drop 10))))

/-! ## pkg/providerid -/

/-- The constant `ProviderPrefix = "nvidia-bmm://"`. -/
def providerPfx : GoStr := gostr "nvidia-bmm://"

/-- `providerid.ProviderID`: the parsed provider identifier. -/
structure ProviderID where
  orgName : GoStr
  tenantName : GoStr
  siteName : GoStr
  instanceID : UUID
deriving DecidableEq, Repr

/-- `providerid.NewProviderID`. -/
def NewProviderID (orgName tenantName siteName : GoStr) (instanceID : UUID) :
    ProviderID :=
  ⟨orgName, tenantName, siteName, instanceID⟩

/-- `ProviderID.String()`: `nvidia-bmm://org/tenant/site/uuid`. -/
def ProviderID.toGoStr (p : ProviderID) : GoStr :=
  providerPfx ++ p.orgName ++ '/' ::
  (p.tenantName ++ '/' :: (p.siteName ++ '/' :: p.instanceID.goString))

/-- The three distinct error returns of `ParseProviderID`, named as the
specification names them. -/
inductive ParseErr where
  | malformedIdentifier
  | invalidSegmentCount
  | invalidInstanceID
deriving DecidableEq, Repr

/-- `providerid.ParseProviderID`: scheme check, split on `/`, then a
3-segment legacy branch (tenant empty) or a 4-segment branch, with the
final segment parsed as a UUID. -/
def ParseProviderID (s : GoStr) : Except ParseErr ProviderID :=
  if providerPfx.isPrefixOf s then
    match goSplit '/' (goTrimPfx providerPfx s) with
    | [a, b, c] =>
      match uuidParse c with
      | none => .error .invalidInstanceID
      | some u => .ok ⟨a, [], b, u⟩
    | [a, b, c, d] =>
      match uuidParse d with
      | none => .error .invalidInstanceID
      | some u => .ok ⟨a, b, c, u⟩
    | _ => .error .invalidSegmentCount
  else .error .malformedIdentifier

/-! ## v1beta1 API types (pkg/apis/nvidiabmmprovider/v1beta1), as used by
the actuator -/

/-- `v1beta1.MachineAddress`: a type tag and a literal address string. -/
structure MachineAddress where
  type : GoStr
  address : GoStr
deriving DecidableEq, Repr

/-- One entry of `NvidiaBMMMachineProviderSpec.AdditionalSubnetIDs`. -/
structure AdditionalSubnet where
  subnetID : GoStr
  isPhysical : Bool
deriving DecidableEq, Repr

/-- `v1beta1.CredentialsSecretReference`. -/
structure CredentialsSecretReference where
  name : GoStr
  namespc : GoStr
deriving DecidableEq, Repr

/-- `v1beta1.NvidiaBMMMachineProviderSpec`: the desired-state record the
actuator decodes from `spec.providerSpec.value`. -/
structure NvidiaBMMMachineProviderSpec where
  siteID : GoStr
  tenantID : GoStr
  vpcID : GoStr
  subnetID : GoStr
  additionalSubnetIDs : List AdditionalSubnet
  instanceTypeID : GoStr
  machineID : GoStr
  allowUnhealthyMachine : Bool
  userData : GoStr
  sshKeyGroupIDs : List GoStr
  labels : List (GoStr × GoStr)
  credentialsSecret : CredentialsSecretReference
deriving DecidableEq, Repr

/-- `v1beta1.NvidiaBMMMachineProviderStatus`: the observed-state record
stored under `status.providerStatus`.  Pointer fields are `Option`s. -/
structure NvidiaBMMMachineProviderStatus where
  instanceID : Option GoStr
  machineID : Option GoStr
  instanceState : Option GoStr
  addresses : List MachineAddress
deriving DecidableEq, Repr

/-- The empty provider status (`&NvidiaBMMMachineProviderStatus{}`). -/
def emptyProviderStatus : NvidiaBMMMachineProviderStatus :=
  ⟨none, none, none, []⟩

/-! ## Remote-platform client types (carbide-rest) -/

/-- `restclient.Interface` as read back from the platform: an optional
list of IP addresses (`*[]string`). -/
structure InstanceInterface where
  ipAddresses : Option (List GoStr)
deriving DecidableEq, Repr

/-- The instance payload returned by create-instance / get-instance. -/
structure InstancePayload where
  id : UUID
  machineId : Option GoStr
  status : Option GoStr
  interfaces : Option (List InstanceInterface)
deriving DecidableEq, Repr

/-- `restclient.InterfaceCreateRequest`. -/
structure InterfaceCreateRequest where
  subnetId : Option UUID
  isPhysical : Option Bool
deriving DecidableEq, Repr

/-- `restclient.CreateInstanceJSONRequestBody`. -/
structure CreateInstanceRequest where
  name : GoStr
  tenantId : UUID
  vpcId : UUID
  interfaces : Option (List InterfaceCreateRequest)
  phoneHomeEnabled : Option Bool
  instanceTypeId : Option UUID
  machineId : Option GoStr
  allowUnhealthyMachine : Option Bool
  userData : Option GoStr
  sshKeyGroupIds : Option (List UUID)
  labels : Option (List (GoStr × GoStr))
deriving DecidableEq, Repr

/-- A create-instance HTTP response: status code plus the optional
decoded 201 payload (`resp.JSON201`). -/
structure CreateInstanceResponse where
  statusCode : Nat
  json201 : Option InstancePayload
deriving DecidableEq, Repr

/-- A get-instance HTTP response (`resp.JSON200`). -/
structure GetInstanceResponse where
  statusCode : Nat
  json200 : Option InstancePayload
deriving DecidableEq, Repr

/-- A delete-instance HTTP response: only the status code is consulted. -/
structure DeleteInstanceResponse where
  statusCode : Nat
deriving DecidableEq, Repr

/-- Go error values are modelled by their message strings. -/
abbrev GoErr := String

/-! ## The machine resource document -/

/-- The `spec.providerSpec.value` subtree as the actuator sees it:
absent, present but not decodable into the typed spec, or decodable. -/
inductive SpecField where
  | absent
  | undecodable
  | value (s : NvidiaBMMMachineProviderSpec)
deriving DecidableEq, Repr

/-- The `status.providerStatus` subtree: absent (decodes to the empty
status), present but not decodable, or decodable. -/
inductive StatusField where
  | absent
  | undecodable
  | value (s : NvidiaBMMMachineProviderStatus)
deriving DecidableEq, Repr

/-- The machine resource document, restricted to the subtrees and
lifecycle markers the embedded code reads or writes. -/
structure MachineObj where
  name : GoStr
  specField : SpecField
  providerID : Option GoStr
  statusField : StatusField
  finalizers : List GoStr
  deletionRequested : Bool
deriving DecidableEq, Repr

/-- `Actuator.getProviderSpec`: fails when `spec.providerSpec.value` is
absent or does not decode. -/
def getProviderSpec (m : MachineObj) :
    Except GoErr NvidiaBMMMachineProviderSpec :=
  match m.specField with
  | .absent => .error "providerSpec.value not found"
  | .undecodable => .error "failed to unmarshal providerSpec"
  | .value s => .ok s

/-- `Actuator.getProviderStatus`: an absent subtree decodes to the empty
status; an undecodable subtree is an error. -/
def getProviderStatus (m : MachineObj) :
    Except GoErr NvidiaBMMMachineProviderStatus :=
  match m.statusField with
  | .absent => .ok emptyProviderStatus
  | .undecodable => .error "failed to unmarshal providerStatus"
  | .value s => .ok s

/-- `Actuator.setProviderStatus`: writes the status subtree (the backing
store write is modelled as always succeeding). -/
def setProviderStatus (m : MachineObj)
    (s : NvidiaBMMMachineProviderStatus) : MachineObj :=
  { m with statusField := .value s }

/-- `Actuator.setProviderID`: writes `spec.providerID`. -/
def setProviderID (m : MachineObj) (pid : GoStr) : MachineObj :=
  { m with providerID := some pid }

/-! ## Actuator operations -/

/-- `buildInstanceRequest`: constructs the create-instance body from the
provider spec — primary subnet as first (virtual) interface, additional
subnets appended with their physical flags, tenant/VPC parsed as UUIDs,
the optional fields populated exactly when present in the spec. -/
def buildInstanceRequest (name : GoStr)
    (ps : NvidiaBMMMachineProviderSpec) : Except GoErr CreateInstanceRequest :=
  match uuidParse ps.subnetID with
  | none => .error "failed to parse subnet ID"
  | some subnetUUID =>
    match (ps.additionalSubnetIDs.mapM fun a =>
        match uuidParse a.subnetID with
        | none => none
        | some u => some (⟨some u, some a.isPhysical⟩ : InterfaceCreateRequest)) with
    | none => .error "failed to parse additional subnet ID"
    | some extraIfaces =>
      match uuidParse ps.tenantID with
      | none => .error "failed to parse tenant ID"
      | some tenantUUID =>
        match uuidParse ps.vpcID with
        | none => .error "failed to parse VPC ID"
        | some vpcUUID =>
          let interfaces : List InterfaceCreateRequest :=
            ⟨some subnetUUID, some false⟩ :: extraIfaces
          let req : CreateInstanceRequest :=
            { name := name
              tenantId := tenantUUID
              vpcId := vpcUUID
              interfaces := some interfaces
              phoneHomeEnabled := some true
              instanceTypeId := none
              machineId := none
              allowUnhealthyMachine := none
              userData := none
              sshKeyGroupIds := none
              labels := none }
          match (if ps.instanceTypeID ≠ [] then
                  match uuidParse ps.instanceTypeID with
                  | none => none
                  | some u => some (some u)
                 else some none : Option (Option UUID)) with
          | none => .error "failed to parse instance type ID"
          | some instanceTypeId =>
            let req := { req with instanceTypeId := instanceTypeId }
            let req := if ps.machineID ≠ []
              then { req with machineId := some ps.machineID } else req
            let req := if ps.allowUnhealthyMachine
              then { req with allowUnhealthyMachine := some true } else req
            let req := if ps.userData ≠ []
              then { req with userData := some ps.userData } else req
            match (if ps.sshKeyGroupIDs.length > 0 then
                    match ps.sshKeyGroupIDs.mapM uuidParse with
                    | none => none
                    | some us => some (some us)
                   else some none : Option (Option (List UUID))) with
            | none => .error "failed to parse SSH key group ID"
            | some sshKeyGroupIds =>
              let req := { req with sshKeyGroupIds := sshKeyGroupIds }
              let req := if ps.labels.length > 0
                then { req with labels := some ps.labels } else req
              .ok req

/-- One outbound call to the remote platform. -/
inductive RemoteCall where
  | createInstance (org : GoStr) (req : CreateInstanceRequest)
  | getInstance (org : GoStr) (instanceId : UUID)
  | deleteInstance (org : GoStr) (instanceId : UUID)
deriving DecidableEq, Repr

/-- The environment one pass runs against: the outcome of credentials
resolution (`getNvidiaBmmClient`, yielding the org name) and the result
each remote call would return if issued. -/
structure Env where
  creds : Except GoErr GoStr
  createResult : Except GoErr CreateInstanceResponse
  getResult : Except GoErr GetInstanceResponse
  deleteResult : Except GoErr DeleteInstanceResponse
deriving Repr

/-- The outcome of one mutating actuator operation: the error returned,
the machine document afterwards, and the remote calls issued. -/
structure OpResult where
  err : Option GoErr
  machine : MachineObj
  calls : List RemoteCall
deriving Repr

/-- Flattening of the returned interface list into machine addresses:
every IP address of every interface, tagged `InternalIP`. -/
def flattenAddresses (ifs : Option (List InstanceInterface)) :
    List MachineAddress :=
  match ifs with
  | none => []
  | some l => l.flatMap fun i =>
      (i.ipAddresses.getD []).map fun ip => ⟨gostr "InternalIP", ip⟩

/-- The provider status `Actuator.Create` builds from a returned
instance payload. -/
def statusFromPayload (inst : InstancePayload) :
    NvidiaBMMMachineProviderStatus :=
  { instanceID := some inst.id.goString
    machineID := inst.machineId
    instanceState := inst.status
    addresses := flattenAddresses inst.interfaces }

/-- `Actuator.Create`: decode spec, resolve credentials, build the
request, issue the create call; an empty 201 payload is an error; on a
payload, write the provider status, then write `spec.providerID` from
`NewProviderID(org, spec.tenantID, spec.siteID, instance.Id)`. -/
def createOp (env : Env) (m : MachineObj) : OpResult :=
  match getProviderSpec m with
  | .error e => ⟨some ("failed to get provider spec: " ++ e), m, []⟩
  | .ok ps =>
    match env.creds with
    | .error e => ⟨some ("failed to create NVIDIA BMM client: " ++ e), m, []⟩
    | .ok orgName =>
      match buildInstanceRequest m.name ps with
      | .error e => ⟨some e, m, []⟩
      | .ok req =>
        let calls := [RemoteCall.createInstance orgName req]
        match env.createResult with
        | .error e => ⟨some ("failed to create instance: " ++ e), m, calls⟩
        | .ok resp =>
          match resp.json201 with
          | none =>
            ⟨some ("create instance returned no data, status code: "
                ++ toString resp.statusCode), m, calls⟩
          | some inst =>
            let m := setProviderStatus m (statusFromPayload inst)
            let pid := NewProviderID orgName ps.tenantID ps.siteID inst.id
            let m := setProviderID m pid.toGoStr
            ⟨none, m, calls⟩

/-- `Actuator.Update`: requires a recorded instance id; issues a
get-instance call; on a payload, refreshes the provider status — state
and machine id only when the payload carries them, the address list
rebuilt from scratch — and writes it back. -/
def updateOp (env : Env) (m : MachineObj) : OpResult :=
  match getProviderSpec m with
  | .error e => ⟨some ("failed to get provider spec: " ++ e), m, []⟩
  | .ok _ =>
    match getProviderStatus m with
    | .error e => ⟨some ("failed to get provider status: " ++ e), m, []⟩
    | .ok ps =>
      match ps.instanceID with
      | none => ⟨some "instance ID not set in provider status", m, []⟩
      | some instStr =>
        match env.creds with
        | .error e =>
          ⟨some ("failed to create NVIDIA BMM client: " ++ e), m, []⟩
        | .ok orgName =>
          match uuidParse instStr with
          | none => ⟨some "failed to parse instance ID", m, []⟩
          | some instanceUUID =>
            let calls := [RemoteCall.getInstance orgName instanceUUID]
            match env.getResult with
            | .error e => ⟨some ("failed to get instance: " ++ e), m, calls⟩
            | .ok resp =>
              match resp.json200 with
              | none =>
                ⟨some ("get instance returned no data, status code: "
                    ++ toString resp.statusCode), m, calls⟩
              | some inst =>
                let ps := match inst.status with
                  | some st => { ps with instanceState := some st }
                  | none => ps
                let ps := match inst.machineId with
                  | some mid => { ps with machineID := some mid }
                  | none => ps
                let ps := { ps with
                  addresses := flattenAddresses inst.interfaces }
                ⟨none, setProviderStatus m ps, calls⟩

/-- `Actuator.Exists`: false without a remote call when no instance id
is recorded; a transport error on the get call is treated as absence;
otherwise true iff a 200 payload came back. -/
def existsOp (env : Env) (m : MachineObj) :
    Except GoErr Bool × List RemoteCall :=
  match getProviderStatus m with
  | .error e => (.error ("failed to get provider status: " ++ e), [])
  | .ok ps =>
    match ps.instanceID with
    | none => (.ok false, [])
    | some instStr =>
      match getProviderSpec m with
      | .error e => (.error ("failed to get provider spec: " ++ e), [])
      | .ok _ =>
        match env.creds with
        | .error e =>
          (.error ("failed to create NVIDIA BMM client: " ++ e), [])
        | .ok orgName =>
          match uuidParse instStr with
          | none => (.error "failed to parse instance ID", [])
          | some instanceUUID =>
            let calls := [RemoteCall.getInstance orgName instanceUUID]
            match env.getResult with
            | .error _ => (.ok false, calls)
            | .ok resp => (.ok resp.json200.isSome, calls)

/-- `Actuator.Delete`: decodes the provider spec first; succeeds with no
remote call when no instance id is recorded; otherwise issues the
delete call, accepting status 204 or 404 as success. -/
def deleteOp (env : Env) (m : MachineObj) :
    Option GoErr × List RemoteCall :=
  match getProviderSpec m with
  | .error e => (some ("failed to get provider spec: " ++ e), [])
  | .ok _ =>
    match getProviderStatus m with
    | .error e => (some ("failed to get provider status: " ++ e), [])
    | .ok ps =>
      match ps.instanceID with
      | none => (none, [])
      | some instStr =>
        match env.creds with
        | .error e =>
          (some ("failed to create NVIDIA BMM client: " ++ e), [])
        | .ok orgName =>
          match uuidParse instStr with
          | none => (some "failed to parse instance ID", [])
          | some instanceUUID =>
            let calls := [RemoteCall.deleteInstance orgName instanceUUID]
            match env.deleteResult with
            | .error e => (some ("failed to delete instance: " ++ e), calls)
            | .ok resp =>
              if resp.statusCode ≠ 204 ∧ resp.statusCode ≠ 404 then
                (some ("delete instance returned unexpected status: "
                    ++ toString resp.statusCode), calls)
              else (none, calls)

/-! ## Machine reconciler -/

/-- The finalizer token `machine.openshift.io/nvidia-bmm`. -/
def machineFinalizer : GoStr := gostr "machine.openshift.io/nvidia-bmm"

/-- Which actuator operations a reconciliation pass invoked, in order. -/
inductive ActuatorOp where
  | opCreate
  | opUpdate
  | opExists
  | opDelete
deriving DecidableEq, Repr

/-- The controller-runtime result of one pass: immediate requeue flag,
requeue-after delay in seconds (0 when unset), and the returned error. -/
structure ReconcileOutcome where
  machine : MachineObj
  requeue : Bool
  requeueAfterSec : Nat
  err : Option GoErr
  actuatorOps : List ActuatorOp
  remoteCalls : List RemoteCall
deriving Repr

/-- `controllerutil.AddFinalizer`: appends the token (it is absent). -/
def addFinalizer (m : MachineObj) : MachineObj :=
  { m with finalizers := m.finalizers ++ [machineFinalizer] }

/-- `controllerutil.RemoveFinalizer`: removes every copy of the token. -/
def removeFinalizer (m : MachineObj) : MachineObj :=
  { m with finalizers := m.finalizers.filter (· ≠ machineFinalizer) }

/-- `MachineReconciler.reconcileNormal`: attach and persist the
finalizer first (requeueing with no actuator call); otherwise Exists,
then Create (requeue after 10s) or Update (requeue after 30s). -/
def reconcileNormal (env : Env) (m : MachineObj) : ReconcileOutcome :=
  if machineFinalizer ∉ m.finalizers then
    { machine := addFinalizer m, requeue := true, requeueAfterSec := 0
      err := none, actuatorOps := [], remoteCalls := [] }
  else
    match existsOp env m with
    | (.error e, calls) =>
      { machine := m, requeue := false, requeueAfterSec := 30
        err := some e, actuatorOps := [.opExists], remoteCalls := calls }
    | (.ok false, calls) =>
      let r := createOp env m
      match r.err with
      | some e =>
        { machine := r.machine, requeue := false, requeueAfterSec := 30
          err := some e, actuatorOps := [.opExists, .opCreate]
          remoteCalls := calls ++ r.calls }
      | none =>
        { machine := r.machine, requeue := false, requeueAfterSec := 10
          err := none, actuatorOps := [.opExists, .opCreate]
          remoteCalls := calls ++ r.calls }
    | (.ok true, calls) =>
      let r := updateOp env m
      match r.err with
      | some e =>
        { machine := r.machine, requeue := false, requeueAfterSec := 30
          err := some e, actuatorOps := [.opExists, .opUpdate]
          remoteCalls := calls ++ r.calls }
      | none =>
        { machine := r.machine, requeue := false, requeueAfterSec := 30
          err := none, actuatorOps := [.opExists, .opUpdate]
          remoteCalls := calls ++ r.calls }

/-- `MachineReconciler.reconcileDelete`: call Delete; only on success
remove the finalizer and persist; on failure surface the error with the
finalizer still attached. -/
def reconcileDelete (env : Env) (m : MachineObj) : ReconcileOutcome :=
  match deleteOp env m with
  | (some e, calls) =>
    { machine := m, requeue := false, requeueAfterSec := 0
      err := some e, actuatorOps := [.opDelete], remoteCalls := calls }
  | (none, calls) =>
    { machine := removeFinalizer m, requeue := false, requeueAfterSec := 0
      err := none, actuatorOps := [.opDelete], remoteCalls := calls }

/-- `MachineReconciler.Reconcile` on a fetched machine: dispatches on
the deletion marker. -/
def reconcile (env : Env) (m : MachineObj) : ReconcileOutcome :=
  if m.deletionRequested then reconcileDelete env m
  else reconcileNormal env m

/-! ## Lemmas about the codec -/

set_option maxRecDepth 8192 in
theorem xtob_hexChar (b : Fin 256) :
    xtob (hexChar (b.val / 16)) (hexChar (b.val % 16)) = some b := by
  revert b; decide

set_option maxRecDepth 8192 in
theorem hexPair_ne_slash (b : Fin 256) :
    hexChar (b.val / 16) ≠ '/' ∧ hexChar (b.val % 16) ≠ '/' := by
  revert b; decide

theorem bytesToHex_ne_slash (bs : List (Fin 256)) : '/' ∉ bytesToHex bs := by
  induction bs with
  | nil => simp [bytesToHex]
  | cons b rest ih =>
    simp only [bytesToHex, List.mem_cons, not_or]
    exact ⟨fun h => (hexPair_ne_slash b).1 h.symm,
           fun h => (hexPair_ne_slash b).2 h.symm, ih⟩

theorem goString_ne_slash (u : UUID) : '/' ∉ u.goString := by
  simp only [UUID.goString, List.mem_append, List.mem_cons, not_or]
  refine ⟨bytesToHex_ne_slash _, by decide, bytesToHex_ne_slash _, by decide,
    bytesToHex_ne_slash _, by decide, bytesToHex_ne_slash _, by decide,
    bytesToHex_ne_slash _⟩

theorem bytesToHex_length (bs : List (Fin 256)) :
    (bytesToHex bs).length = 2 * bs.length := by
  induction bs with
  | nil => rfl
  | cons b rest ih => simp [bytesToHex, ih]; ring

theorem goString_length (u : UUID) (h : u.bytes.length = 16) :
    u.goString.length = 36 := by
  simp [UUID.goString, bytesToHex_length, List.length_take, List.length_drop, h]

theorem readHexBytes_bytesToHex (bs : List (Fin 256)) (r : GoStr) :
    readHexBytes bs.length (bytesToHex bs ++ r) = some (bs, r) := by
  induction bs with
  | nil => rfl
  | cons b rest ih =>
    simp only [bytesToHex, List.length_cons, List.cons_append, readHexBytes,
      xtob_hexChar b, List.append_eq, ih]

theorem readHexBytes_enc (n : Nat) (bs : List (Fin 256)) (r : GoStr)
    (h : bs.length = n) : readHexBytes n (bytesToHex bs ++ r) = some (bs, r) := by
  subst h; exact readHexBytes_bytesToHex bs r

theorem take_drop_recompose (l : List (Fin 256)) :
    l.take 4 ++ (l.drop 4).take 2 ++ (l.drop 6).take 2 ++
      (l.drop 8).take 2 ++ l.drop 10 = l := by
  simp only [List.append_assoc]
  have h10 : (l.drop 8).take 2 ++ l.drop 10 = l.drop 8 := by
    have : l.drop 10 = (l.drop 8).drop 2 := by
      rw [List.drop_drop]
    rw [this, List.take_append_drop]
  have h8 : (l.drop 6).take 2 ++ l.drop 8 = l.drop 6 := by
    have : l.drop 8 = (l.drop 6).drop 2 := by
      rw [List.drop_drop]
    rw [this, List.take_append_drop]
  have h6 : (l.drop 4).take 2 ++ l.drop 6 = l.drop 4 := by
    have : l.drop 6 = (l.drop 4).drop 2 := by
      rw [List.drop_drop]
    rw [this, List.take_append_drop]
  rw [h10, h8, h6, List.take_append_drop]

theorem parseCanonical_goString (u : UUID) (h : u.bytes.length = 16) :
    parseCanonical u.goString = some u := by
  have t4 : (u.bytes.take 4).length = 4 := by simp [List.length_take, h]
  have t2a : ((u.bytes.drop 4).take 2).length = 2 := by
    simp [List.length_take, List.length_drop, h]
  have t2b : ((u.bytes.drop 6).take 2).length = 2 := by
    simp [List.length_take, List.length_drop, h]
  have t2c : ((u.bytes.drop 8).take 2).length = 2 := by
    simp [List.length_take, List.length_drop, h]
  have t6 : (u.bytes.drop 10).length = 6 := by simp [List.length_drop, h]
  have hnil : bytesToHex (u.bytes.drop 10) = bytesToHex (u.bytes.drop 10) ++ [] := by
    simp
  simp only [parseCanonical, UUID.goString, bind, Option.bind]
  rw [readHexBytes_enc 4 _ _ t4]
  simp only [expectDash]
  rw [readHexBytes_enc 2 _ _ t2a]
  simp only [expectDash]
  rw [readHexBytes_enc 2 _ _ t2b]
  simp only [expectDash]
  rw [readHexBytes_enc 2 _ _ t2c]
  simp only [expectDash]
  rw [hnil, readHexBytes_enc 6 _ _ t6]
  simp only [pure, Option.some.injEq]
  exact congrArg UUID.mk (take_drop_recompose u.bytes)

theorem uuidParse_goString (u : UUID) (h : u.bytes.length = 16) :
    uuidParse u.goString = some u := by
  rw [uuidParse, if_pos (goString_length u h)]
  exact parseCanonical_goString u h

theorem goSplit_ne_nil (sep : Char) (l : GoStr) : goSplit sep l ≠ [] := by
  cases l with
  | nil => simp [goSplit]
  | cons c rest =>
    cases hg : goSplit sep rest with
    | nil => by_cases hc : c = sep <;> simp [goSplit, hg, hc]
    | cons s ss => by_cases hc : c = sep <;> simp [goSplit, hg, hc]

theorem goSplit_no_sep (sep : Char) (l : GoStr) (h : sep ∉ l) :
    goSplit sep l = [l] := by
  induction l with
  | nil => rfl
  | cons c rest ih =>
    have hc : c ≠ sep := fun hc => h (hc ▸ List.mem_cons_self c rest)
    have hr : sep ∉ rest := fun hr => h (List.mem_cons_of_mem c hr)
    simp [goSplit, ih hr, hc]

theorem goSplit_append (sep : Char) (a r : GoStr) (h : sep ∉ a) :
    goSplit sep (a ++ sep :: r) = a :: goSplit sep r := by
  induction a with
  | nil =>
    cases hg : goSplit sep r with
    | nil => exact absurd hg (goSplit_ne_nil sep r)
    | cons s ss => simp [goSplit, hg]
  | cons c rest ih =>
    have hc : c ≠ sep := fun hc => h (hc ▸ List.mem_cons_self c rest)
    have hr : sep ∉ rest := fun hr => h (List.mem_cons_of_mem c hr)
    simp only [List.cons_append, goSplit, List.append_eq, ih hr, if_neg hc]

theorem goTrimPfx_append (p r : GoStr) : goTrimPfx p (p ++ r) = r := by
  have hp : p.isPrefixOf (p ++ r) = true := by
    rw [List.isPrefixOf_iff_prefix]
    exact List.prefix_append p r
  simp [goTrimPfx, hp]

theorem isPrefixOf_append (p r : GoStr) : p.isPrefixOf (p ++ r) = true := by
  rw [List.isPrefixOf_iff_prefix]
  exact List.prefix_append p r

theorem ParseProviderID_of_pfx (s : GoStr)
    (hs : providerPfx.isPrefixOf s = true) :
    ParseProviderID s =
      match goSplit '/' (goTrimPfx providerPfx s) with
      | [a, b, c] =>
        match uuidParse c with
        | none => .error .invalidInstanceID
        | some u => .ok ⟨a, [], b, u⟩
      | [a, b, c, d] =>
        match uuidParse d with
        | none => .error .invalidInstanceID
        | some u => .ok ⟨a, b, c, u⟩
      | _ => .error .invalidSegmentCount := by
  rw [ParseProviderID, if_pos hs]

/-- A sample 16-byte UUID, `550e8400-e29b-41d4-a716-446655440000`. -/
def uuidA : UUID :=
  ⟨[85, 14, 132, 0, 226, 155, 65, 212, 167, 22, 68, 102, 85, 68, 0, 0]⟩

/-- C3: for org/tenant/site segments free of `/` and a valid (16-byte)
UUID, decoding the encoding returns exactly the original components. -/
theorem C3_roundtrip (org tenant site : GoStr) (u : UUID)
    (h1 : '/' ∉ org) (h2 : '/' ∉ tenant) (h3 : '/' ∉ site)
    (h4 : u.bytes.length = 16) :
    ParseProviderID (NewProviderID org tenant site u).toGoStr =
      .ok (NewProviderID org tenant site u) := by
  have hform : (NewProviderID org tenant site u).toGoStr =
      providerPfx ++ (org ++ '/' :: (tenant ++ '/' :: (site ++ '/' :: u.goString))) := by
    simp [NewProviderID, ProviderID.toGoStr, List.append_assoc]
  rw [hform, ParseProviderID_of_pfx _ (isPrefixOf_append _ _), goTrimPfx_append,
    goSplit_append '/' org _ h1, goSplit_append '/' tenant _ h2,
    goSplit_append '/' site _ h3,
    goSplit_no_sep '/' u.goString (goString_ne_slash u)]
  simp [uuidParse_goString u h4, NewProviderID]

theorem C3_roundtrip_witness :
    ParseProviderID (NewProviderID (gostr "acme") (gostr "tnt")
        (gostr "site1") uuidA).toGoStr =
      .ok (NewProviderID (gostr "acme") (gostr "tnt") (gostr "site1") uuidA) :=
  C3_roundtrip (gostr "acme") (gostr "tnt") (gostr "site1") uuidA
    (by decide) (by decide) (by decide) (by decide)

/-- C9: a legacy three-segment identifier with a valid UUID final
segment decodes with tenant empty and the given org/site/uuid. -/
theorem C9_legacy_three_segment (org site us : GoStr) (u : UUID)
    (h1 : '/' ∉ org) (h2 : '/' ∉ site) (h3 : '/' ∉ us)
    (h4 : uuidParse us = some u) :
    ParseProviderID (providerPfx ++ (org ++ '/' :: (site ++ '/' :: us))) =
      .ok ⟨org, [], site, u⟩ := by
  rw [ParseProviderID_of_pfx _ (isPrefixOf_append _ _), goTrimPfx_append,
    goSplit_append '/' org _ h1, goSplit_append '/' site _ h2,
    goSplit_no_sep '/' us h3]
  simp [h4]

theorem C9_legacy_three_segment_witness :
    ParseProviderID (providerPfx ++ (gostr "acme" ++ '/' ::
        (gostr "site1" ++ '/' :: gostr "550e8400-e29b-41d4-a716-446655440000"))) =
      .ok ⟨gostr "acme", [], gostr "site1", uuidA⟩ :=
  C9_legacy_three_segment (gostr "acme") (gostr "site1")
    (gostr "550e8400-e29b-41d4-a716-446655440000") uuidA
    (by decide) (by decide) (by decide) (by decide)

/-- C8: `ParseProviderID` fails with `MalformedIdentifier` exactly when
the scheme marker is absent; with the marker present it fails with
`InvalidSegmentCount` exactly when the remainder does not split into 3
or 4 segments, fails with `InvalidInstanceID` when the final segment is
not a valid UUID literal, and succeeds otherwise with the org, tenant
and site segments taken verbatim (empty segments included). -/
theorem C8_parse_errors (s : GoStr) :
    (providerPfx.isPrefixOf s = false →
      ParseProviderID s = .error .malformedIdentifier) ∧
    (providerPfx.isPrefixOf s = true →
      ((goSplit '/' (goTrimPfx providerPfx s)).length ≠ 3 →
        (goSplit '/' (goTrimPfx providerPfx s)).length ≠ 4 →
        ParseProviderID s = .error .invalidSegmentCount) ∧
      (∀ a b c, goSplit '/' (goTrimPfx providerPfx s) = [a, b, c] →
        (uuidParse c = none → ParseProviderID s = .error .invalidInstanceID) ∧
        (∀ u, uuidParse c = some u → ParseProviderID s = .ok ⟨a, [], b, u⟩)) ∧
      (∀ a b c d, goSplit '/' (goTrimPfx providerPfx s) = [a, b, c, d] →
        (uuidParse d = none → ParseProviderID s = .error .invalidInstanceID) ∧
        (∀ u, uuidParse d = some u → ParseProviderID s = .ok ⟨a, b, c, u⟩))) := by
  refine ⟨fun h => ?_, fun hs => ⟨fun h3 h4 => ?_, fun a b c hg => ⟨fun hu => ?_, fun u hu => ?_⟩,
    fun a b c d hg => ⟨fun hu => ?_, fun u hu => ?_⟩⟩⟩
  · rw [ParseProviderID, if_neg (by simp [h])]
  · rw [ParseProviderID_of_pfx s hs]
    cases hg : goSplit '/' (goTrimPfx providerPfx s) with
    | nil => rfl
    | cons a t =>
      cases t with
      | nil => rfl
      | cons b t2 =>
        cases t2 with
        | nil => rfl
        | cons c t3 =>
          cases t3 with
          | nil => exact absurd (by rw [hg]; rfl) h3
          | cons d t4 =>
            cases t4 with
            | nil => exact absurd (by rw [hg]; rfl) h4
            | cons e t5 => rfl
  · rw [ParseProviderID_of_pfx s hs, hg]
    simp [hu]
  · rw [ParseProviderID_of_pfx s hs, hg]
    simp [hu]
  · rw [ParseProviderID_of_pfx s hs, hg]
    simp [hu]
  · rw [ParseProviderID_of_pfx s hs, hg]
    simp [hu]

theorem C8_parse_errors_witness :
    ParseProviderID (gostr "foo") = .error .malformedIdentifier ∧
    ParseProviderID (gostr "nvidia-bmm://a/b") = .error .invalidSegmentCount ∧
    ParseProviderID (gostr "nvidia-bmm://a/b/c/d/e") = .error .invalidSegmentCount ∧
    ParseProviderID (gostr "nvidia-bmm://a/b/zzz") = .error .invalidInstanceID ∧
    ParseProviderID (gostr "nvidia-bmm:///b/550e8400-e29b-41d4-a716-446655440000") =
      .ok ⟨[], [], gostr "b", uuidA⟩ :=
  ⟨(C8_parse_errors (gostr "foo")).1 (by decide),
   ((C8_parse_errors _).2 (by decide)).1 (by decide) (by decide),
   ((C8_parse_errors _).2 (by decide)).1 (by decide) (by decide),
   (((C8_parse_errors _).2 (by decide)).2.1 (gostr "a") (gostr "b")
     (gostr "zzz") (by decide)).1 (by decide),
   (((C8_parse_errors _).2 (by decide)).2.1 [] (gostr "b")
     (gostr "550e8400-e29b-41d4-a716-446655440000") (by decide)).2 uuidA
     (by decide)⟩

/-! ## Claims about the actuator -/

/-- C1: with a decodable ProviderSpec, resolvable credentials and a
well-formed request, Create fails when the remote create succeeds
without an instance payload; with a payload it records the instance id,
every IP of every returned interface tagged `InternalIP`, and writes
`spec.providerID = nvidia-bmm://org/tenant/site/instanceId`. -/
theorem C1_create_success (env : Env) (m : MachineObj)
    (ps : NvidiaBMMMachineProviderSpec) (org : GoStr)
    (req : CreateInstanceRequest)
    (hspec : m.specField = .value ps)
    (hcreds : env.creds = .ok org)
    (hreq : buildInstanceRequest m.name ps = .ok req) :
    (∀ resp, env.createResult = .ok resp → resp.json201 = none →
      (createOp env m).err = some ("create instance returned no data, status code: "
        ++ toString resp.statusCode)) ∧
    (∀ resp inst, env.createResult = .ok resp → resp.json201 = some inst →
      (createOp env m).err = none ∧
      (createOp env m).machine.statusField = .value
        { instanceID := some inst.id.goString
          machineID := inst.machineId
          instanceState := inst.status
          addresses := (inst.interfaces.getD []).flatMap fun i =>
            (i.ipAddresses.getD []).map fun ip => ⟨gostr "InternalIP", ip⟩ } ∧
      (createOp env m).machine.providerID =
        some (providerPfx ++ (org ++ '/' :: (ps.tenantID ++ '/' ::
          (ps.siteID ++ '/' :: inst.id.goString))))) := by
  have hflat : ∀ ifs : Option (List InstanceInterface), flattenAddresses ifs =
      (ifs.getD []).flatMap fun i =>
        (i.ipAddresses.getD []).map fun ip =>
          MachineAddress.mk (gostr "InternalIP") ip := by
    intro ifs; cases ifs <;> rfl
  constructor
  · intro resp h1 h2
    simp [createOp, getProviderSpec, hspec, hcreds, hreq, h1, h2]
  · intro resp inst h1 h2
    refine ⟨?_, ?_, ?_⟩
    · simp [createOp, getProviderSpec, hspec, hcreds, hreq, h1, h2]
    · simp [createOp, getProviderSpec, hspec, hcreds, hreq, h1, h2,
        setProviderID, setProviderStatus, statusFromPayload, hflat]
    · simp [createOp, getProviderSpec, hspec, hcreds, hreq, h1, h2,
        setProviderID, setProviderStatus, NewProviderID, ProviderID.toGoStr,
        List.append_assoc]

/-- A provider spec whose identifier fields parse, suitable for a
successful `buildInstanceRequest`. -/
def specOK : NvidiaBMMMachineProviderSpec :=
  { siteID := gostr "550e8400-e29b-41d4-a716-446655440000"
    tenantID := gostr "660e8400-e29b-41d4-a716-446655440001"
    vpcID := gostr "770e8400-e29b-41d4-a716-446655440002"
    subnetID := gostr "880e8400-e29b-41d4-a716-446655440003"
    additionalSubnetIDs := []
    instanceTypeID := []
    machineID := []
    allowUnhealthyMachine := false
    userData := []
    sshKeyGroupIDs := []
    labels := []
    credentialsSecret := ⟨gostr "nvidia-bmm-creds", gostr "default"⟩ }

/-- A second sample UUID, differing from `uuidA` in the last byte. -/
def uuidB : UUID :=
  ⟨[85, 14, 132, 0, 226, 155, 65, 212, 167, 22, 68, 102, 85, 68, 0, 1]⟩

/-- A machine document carrying `specOK` and no recorded instance. -/
def machineFresh : MachineObj :=
  { name := gostr "worker-0", specField := .value specOK, providerID := none
    statusField := .absent, finalizers := [machineFinalizer]
    deletionRequested := false }

/-- An environment where creation succeeds and returns an instance with
one interface holding two IP addresses. -/
def envCreateOK : Env :=
  { creds := .ok (gostr "test-org")
    createResult := .ok ⟨201, some
      { id := uuidB, machineId := none, status := some (gostr "provisioning")
        interfaces := some [⟨some [gostr "10.0.0.5", gostr "10.0.0.6"]⟩] }⟩
    getResult := .error "unused"
    deleteResult := .error "unused" }

theorem C1_create_success_witness :
    (createOp envCreateOK machineFresh).err = none ∧
    (createOp envCreateOK machineFresh).machine.statusField = .value
      { instanceID := some uuidB.goString
        machineID := none
        instanceState := some (gostr "provisioning")
        addresses := [⟨gostr "InternalIP", gostr "10.0.0.5"⟩,
                      ⟨gostr "InternalIP", gostr "10.0.0.6"⟩] } ∧
    (createOp envCreateOK machineFresh).machine.providerID =
      some (providerPfx ++ (gostr "test-org" ++ '/' :: (specOK.tenantID ++ '/' ::
        (specOK.siteID ++ '/' :: uuidB.goString)))) := by
  have h := (C1_create_success envCreateOK machineFresh specOK (gostr "test-org")
    (CreateInstanceRequest.mk (gostr "worker-0")
      ⟨[102, 14, 132, 0, 226, 155, 65, 212, 167, 22, 68, 102, 85, 68, 0, 1]⟩
      ⟨[119, 14, 132, 0, 226, 155, 65, 212, 167, 22, 68, 102, 85, 68, 0, 2]⟩
      (some [⟨some ⟨[136, 14, 132, 0, 226, 155, 65, 212, 167, 22, 68, 102, 85, 68, 0, 3]⟩,
        some false⟩])
      (some true) none none none none none none)
    rfl rfl rfl).2 _ _ rfl rfl
  exact ⟨h.1, by rw [h.2.1]; rfl, h.2.2⟩

/-- C4: Exists returns `(false, nil)` with no remote call when no
instance id is recorded; with one recorded, a transport error on the
get-instance call is treated as absence, and a returned response yields
true exactly when it carries a payload. -/
theorem C4_exists_semantics (env : Env) (m : MachineObj) :
    (∀ ps, getProviderStatus m = .ok ps → ps.instanceID = none →
      existsOp env m = (.ok false, [])) ∧
    (∀ ps s sp org u, getProviderStatus m = .ok ps → ps.instanceID = some s →
      m.specField = .value sp → env.creds = .ok org → uuidParse s = some u →
      (∀ e, env.getResult = .error e →
        existsOp env m = (.ok false, [.getInstance org u])) ∧
      (∀ resp, env.getResult = .ok resp →
        existsOp env m = (.ok resp.json200.isSome, [.getInstance org u]))) := by
  constructor
  · intro ps hst hid
    simp [existsOp, hst, hid]
  · intro ps s sp org u hst hid hspec hcreds hu
    constructor
    · intro e hg
      simp [existsOp, hst, hid, getProviderSpec, hspec, hcreds, hu, hg]
    · intro resp hg
      simp [existsOp, hst, hid, getProviderSpec, hspec, hcreds, hu, hg]

/-- A machine with a recorded instance id and a decodable spec. -/
def machineProvisioned : MachineObj :=
  { name := gostr "worker-0", specField := .value specOK
    providerID := some (NewProviderID (gostr "test-org") specOK.tenantID
      specOK.siteID uuidA).toGoStr
    statusField := .value
      { instanceID := some (gostr "550e8400-e29b-41d4-a716-446655440000")
        machineID := some (gostr "machine-7")
        instanceState := some (gostr "running")
        addresses := [⟨gostr "InternalIP", gostr "10.0.0.5"⟩] }
    finalizers := [machineFinalizer]
    deletionRequested := false }

/-- An environment whose get-instance call fails in transport. -/
def envGetErr : Env :=
  { creds := .ok (gostr "test-org")
    createResult := .error "unused"
    getResult := .error "connection timed out"
    deleteResult := .error "unused" }

theorem C4_exists_semantics_witness :
    existsOp envGetErr
      { machineProvisioned with statusField := .absent } = (.ok false, []) ∧
    existsOp envGetErr machineProvisioned =
      (.ok false, [.getInstance (gostr "test-org") uuidA]) :=
  ⟨(C4_exists_semantics envGetErr _).1 emptyProviderStatus rfl rfl,
   ((C4_exists_semantics envGetErr machineProvisioned).2
      { instanceID := some (gostr "550e8400-e29b-41d4-a716-446655440000")
        machineID := some (gostr "machine-7")
        instanceState := some (gostr "running")
        addresses := [⟨gostr "InternalIP", gostr "10.0.0.5"⟩] }
      (gostr "550e8400-e29b-41d4-a716-446655440000") specOK
      (gostr "test-org") uuidA rfl rfl rfl rfl rfl).1
     "connection timed out" rfl⟩

/-- C10: Delete decodes the provider spec before the instance-id check,
so with an absent or undecodable spec it errors even though nothing is
recorded, while Exists on the same document returns `(false, nil)`
without reading the spec. -/
theorem C10_delete_reads_spec_first (env : Env) (m : MachineObj)
    (ps : NvidiaBMMMachineProviderStatus)
    (hspec : m.specField = .absent ∨ m.specField = .undecodable)
    (hst : getProviderStatus m = .ok ps) (hid : ps.instanceID = none) :
    (deleteOp env m).1.isSome = true ∧ (deleteOp env m).2 = [] ∧
    existsOp env m = (.ok false, []) := by
  rcases hspec with h | h <;>
    simp [deleteOp, existsOp, getProviderSpec, h, hst, hid]

/-- A machine document with no provider spec and no status subtree. -/
def machineNoSpec : MachineObj :=
  { machineProvisioned with
    specField := .absent
    statusField := .absent }

theorem C10_delete_reads_spec_first_witness :
    (deleteOp envGetErr machineNoSpec).1.isSome = true ∧
    (deleteOp envGetErr machineNoSpec).2 = [] ∧
    existsOp envGetErr machineNoSpec = (.ok false, []) :=
  C10_delete_reads_spec_first envGetErr _ emptyProviderStatus (Or.inl rfl)
    rfl rfl

/-- C5 counterexample: a resource with no recorded instance id but an
absent provider spec makes Delete return an error, not the immediate
nothing-to-delete success the claim states. -/
theorem C5_counterexample :
    getProviderStatus machineNoSpec = .ok emptyProviderStatus ∧
    emptyProviderStatus.instanceID = none ∧
    (deleteOp envGetErr machineNoSpec).1 =
      some "failed to get provider spec: providerSpec.value not found" := by
  refine ⟨rfl, rfl, rfl⟩

/-- C5 (amended): on a resource whose provider spec decodes, Delete with
no recorded instance id succeeds immediately with no remote call; with a
recorded id, a delete response with status 204 or 404 counts as success
and any other status yields an error. -/
theorem C5_delete_semantics (env : Env) (m : MachineObj)
    (sp : NvidiaBMMMachineProviderSpec) (hspec : m.specField = .value sp) :
    (∀ ps, getProviderStatus m = .ok ps → ps.instanceID = none →
      deleteOp env m = (none, [])) ∧
    (∀ ps s org u resp, getProviderStatus m = .ok ps →
      ps.instanceID = some s → env.creds = .ok org → uuidParse s = some u →
      env.deleteResult = .ok resp →
      ((resp.statusCode = 204 ∨ resp.statusCode = 404) →
        deleteOp env m = (none, [.deleteInstance org u])) ∧
      (resp.statusCode ≠ 204 → resp.statusCode ≠ 404 →
        deleteOp env m = (some ("delete instance returned unexpected status: "
          ++ toString resp.statusCode), [.deleteInstance org u]))) := by
  constructor
  · intro ps hst hid
    simp [deleteOp, getProviderSpec, hspec, hst, hid]
  · intro ps s org u resp hst hid hcreds hu hresp
    constructor
    · rintro (h | h) <;>
        simp [deleteOp, getProviderSpec, hspec, hst, hid, hcreds, hu, hresp, h]
    · intro h1 h2
      simp [deleteOp, getProviderSpec, hspec, hst, hid, hcreds, hu, hresp,
        h1, h2]

/-- An environment whose delete-instance call returns 204. -/
def envDeleteOK : Env :=
  { creds := .ok (gostr "test-org")
    createResult := .error "unused"
    getResult := .error "unused"
    deleteResult := .ok ⟨204⟩ }

theorem C5_delete_semantics_witness :
    deleteOp envDeleteOK
      { machineProvisioned with statusField := .absent } = (none, []) ∧
    deleteOp envDeleteOK machineProvisioned =
      (none, [.deleteInstance (gostr "test-org") uuidA]) :=
  ⟨(C5_delete_semantics envDeleteOK _ specOK rfl).1 emptyProviderStatus rfl rfl,
   ((C5_delete_semantics envDeleteOK machineProvisioned specOK rfl).2
      { instanceID := some (gostr "550e8400-e29b-41d4-a716-446655440000")
        machineID := some (gostr "machine-7")
        instanceState := some (gostr "running")
        addresses := [⟨gostr "InternalIP", gostr "10.0.0.5"⟩] }
      (gostr "550e8400-e29b-41d4-a716-446655440000") (gostr "test-org")
      uuidA ⟨204⟩ rfl rfl rfl rfl rfl).1 (Or.inl rfl)⟩

/-- An environment whose get-instance call succeeds with a payload that
reports no state, no machine id and an empty interface list. -/
def envStale : Env :=
  { creds := .ok (gostr "test-org")
    createResult := .error "unused"
    getResult := .ok ⟨200, some
      { id := uuidA, machineId := none, status := none, interfaces := some [] }⟩
    deleteResult := .error "unused" }

/-- C6 counterexample: the fresh payload reports neither a state nor a
machine id, yet after a successful Update the previous `running` state
and machine id remain in the provider status — the status is not
rewritten wholesale, so these stopped-being-reported values do not
disappear. -/
theorem C6_counterexample :
    envStale.getResult = .ok ⟨200, some
      { id := uuidA, machineId := none, status := none,
        interfaces := some [] }⟩ ∧
    (updateOp envStale machineProvisioned).err = none ∧
    (updateOp envStale machineProvisioned).machine.statusField = .value
      { instanceID := some (gostr "550e8400-e29b-41d4-a716-446655440000")
        machineID := some (gostr "machine-7")
        instanceState := some (gostr "running")
        addresses := [] } := by
  refine ⟨rfl, rfl, rfl⟩

/-- C6 (amended): a successful Update leaves the instance id unchanged
and rebuilds the address list from scratch from the fresh payload, but
overwrites the instance state and machine id only when the payload
reports them, retaining the previous values otherwise. -/
theorem C6_update_refresh (env : Env) (m : MachineObj)
    (sp : NvidiaBMMMachineProviderSpec)
    (ps : NvidiaBMMMachineProviderStatus) (s : GoStr) (u : UUID)
    (org : GoStr) (resp : GetInstanceResponse) (inst : InstancePayload)
    (hspec : m.specField = .value sp)
    (hst : getProviderStatus m = .ok ps)
    (hid : ps.instanceID = some s)
    (hcreds : env.creds = .ok org)
    (hu : uuidParse s = some u)
    (hresp : env.getResult = .ok resp)
    (hinst : resp.json200 = some inst) :
    (updateOp env m).err = none ∧
    (updateOp env m).machine.statusField = .value
      { instanceID := ps.instanceID
        machineID := inst.machineId.or ps.machineID
        instanceState := inst.status.or ps.instanceState
        addresses := (inst.interfaces.getD []).flatMap fun i =>
          (i.ipAddresses.getD []).map fun ip => ⟨gostr "InternalIP", ip⟩ } := by
  have hflat : flattenAddresses inst.interfaces =
      (inst.interfaces.getD []).flatMap fun i =>
        (i.ipAddresses.getD []).map fun ip =>
          MachineAddress.mk (gostr "InternalIP") ip := by
    cases h : inst.interfaces <;> simp [flattenAddresses, h]
  constructor
  · simp [updateOp, getProviderSpec, hspec, hst, hid, hcreds, hu, hresp, hinst]
  · cases hms : inst.status <;> cases hmm : inst.machineId <;>
      simp [updateOp, getProviderSpec, hspec, hst, hid, hcreds, hu, hresp,
        hinst, hms, hmm, setProviderStatus, hflat, Option.or, hid]

theorem C6_update_refresh_witness :
    (updateOp envStale machineProvisioned).err = none ∧
    (updateOp envStale machineProvisioned).machine.statusField = .value
      { instanceID := some (gostr "550e8400-e29b-41d4-a716-446655440000")
        machineID := (none : Option GoStr).or (some (gostr "machine-7"))
        instanceState := (none : Option GoStr).or (some (gostr "running"))
        addresses := [] } :=
  C6_update_refresh envStale machineProvisioned specOK
    { instanceID := some (gostr "550e8400-e29b-41d4-a716-446655440000")
      machineID := some (gostr "machine-7")
      instanceState := some (gostr "running")
      addresses := [⟨gostr "InternalIP", gostr "10.0.0.5"⟩] }
    (gostr "550e8400-e29b-41d4-a716-446655440000") uuidA (gostr "test-org")
    ⟨200,
      some { id := uuidA, machineId := none, status := none, interfaces := some [] }⟩
    { id := uuidA, machineId := none, status := none, interfaces := some [] }
    rfl rfl rfl rfl rfl rfl rfl

theorem createOp_pid_cases (env : Env) (m : MachineObj) :
    (createOp env m).machine.providerID = m.providerID ∨
    (createOp env m).err = none := by
  rcases h1 : getProviderSpec m with e | sp
  · exact Or.inl (by simp [createOp, h1])
  · rcases h2 : env.creds with e | org
    · exact Or.inl (by simp [createOp, h1, h2])
    · rcases h3 : buildInstanceRequest m.name sp with e | req
      · exact Or.inl (by simp [createOp, h1, h2, h3])
      · rcases h4 : env.createResult with e | resp
        · exact Or.inl (by simp [createOp, h1, h2, h3, h4])
        · rcases h5 : resp.json201 with _ | inst
          · exact Or.inl (by simp [createOp, h1, h2, h3, h4, h5])
          · exact Or.inr (by simp [createOp, h1, h2, h3, h4, h5])

/-- An environment in which the existence probe fails in transport (so
Exists reports absence) and a re-create succeeds with a new instance. -/
def envRecreate : Env :=
  { creds := .ok (gostr "test-org")
    createResult := .ok ⟨201,
      some { id := uuidB, machineId := none, status := none, interfaces := none }⟩
    getResult := .error "connection timed out"
    deleteResult := .error "unused" }

/-- C2 counterexample: a machine whose providerID was set by an earlier
successful Create goes through one reconciliation pass in which the
existence probe errors (treated as absence) and Create succeeds with a
fresh instance — the already-set providerID changes to the new
instance's identifier. -/
theorem C2_counterexample :
    machineProvisioned.providerID = some (NewProviderID (gostr "test-org")
      specOK.tenantID specOK.siteID uuidA).toGoStr ∧
    (reconcile envRecreate machineProvisioned).err = none ∧
    (reconcile envRecreate machineProvisioned).machine.providerID =
      some (NewProviderID (gostr "test-org")
        specOK.tenantID specOK.siteID uuidB).toGoStr ∧
    (NewProviderID (gostr "test-org") specOK.tenantID specOK.siteID
      uuidB).toGoStr ≠
    (NewProviderID (gostr "test-org") specOK.tenantID specOK.siteID
      uuidA).toGoStr := by
  refine ⟨rfl, rfl, rfl, by decide⟩

/-- C2 (amended): Update never changes `spec.providerID`, the deletion
path (Delete plus finalizer removal) never changes it, and a Create that
returns an error leaves it unchanged; but every successful Create
(re)writes it, so it is overwritten — not preserved — when Create runs
again successfully after the first one. -/
theorem C2_providerID_stability (env : Env) (m : MachineObj) :
    (updateOp env m).machine.providerID = m.providerID ∧
    (reconcileDelete env m).machine.providerID = m.providerID ∧
    ((createOp env m).err.isSome = true →
      (createOp env m).machine.providerID = m.providerID) := by
  refine ⟨?_, ?_, fun herr => ?_⟩
  · rcases h1 : getProviderSpec m with e | sp
    · simp [updateOp, h1]
    · rcases h2 : getProviderStatus m with e | ps
      · simp [updateOp, h1, h2]
      · rcases h3 : ps.instanceID with _ | s
        · simp [updateOp, h1, h2, h3]
        · rcases h4 : env.creds with e | org
          · simp [updateOp, h1, h2, h3, h4]
          · rcases h5 : uuidParse s with _ | u
            · simp [updateOp, h1, h2, h3, h4, h5]
            · rcases h6 : env.getResult with e | resp
              · simp [updateOp, h1, h2, h3, h4, h5, h6]
              · rcases h7 : resp.json200 with _ | inst
                · simp [updateOp, h1, h2, h3, h4, h5, h6, h7]
                · simp [updateOp, h1, h2, h3, h4, h5, h6, h7,
                    setProviderStatus]
  · rcases h : deleteOp env m with ⟨e, calls⟩
    cases e with
    | none => simp [reconcileDelete, h, removeFinalizer]
    | some e => simp [reconcileDelete, h]
  · rcases createOp_pid_cases env m with h | h
    · exact h
    · rw [h] at herr
      exact absurd herr (by simp)

theorem C2_providerID_stability_witness :
    (updateOp envGetErr machineNoSpec).machine.providerID =
      machineNoSpec.providerID ∧
    (reconcileDelete envGetErr machineNoSpec).machine.providerID =
      machineNoSpec.providerID ∧
    (createOp envGetErr machineNoSpec).machine.providerID =
      machineNoSpec.providerID :=
  ⟨(C2_providerID_stability envGetErr machineNoSpec).1,
   (C2_providerID_stability envGetErr machineNoSpec).2.1,
   (C2_providerID_stability envGetErr machineNoSpec).2.2 rfl⟩

/-! ## Claims about the reconciler -/

/-- C7: a pass over a resource lacking the finalizer attaches it,
requests immediate re-invocation, and invokes no actuator operation and
no remote call; when deletion is requested, on a Delete error the
finalizer list is untouched and the error is surfaced, and the
finalizer is removed exactly when Delete returns without error. -/
theorem C7_finalizer_protocol (env : Env) (m : MachineObj) :
    (m.deletionRequested = false → machineFinalizer ∉ m.finalizers →
      reconcile env m =
        { machine := addFinalizer m, requeue := true, requeueAfterSec := 0
          err := none, actuatorOps := [], remoteCalls := [] } ∧
      machineFinalizer ∈ (reconcile env m).machine.finalizers) ∧
    (m.deletionRequested = true →
      (∀ e calls, deleteOp env m = (some e, calls) →
        (reconcile env m).err = some e ∧
        (reconcile env m).machine.finalizers = m.finalizers) ∧
      (∀ calls, deleteOp env m = (none, calls) →
        (reconcile env m).err = none ∧
        (reconcile env m).machine.finalizers =
          m.finalizers.filter (· ≠ machineFinalizer))) := by
  constructor
  · intro hdel hfin
    constructor
    · simp [reconcile, hdel, reconcileNormal, hfin]
    · simp [reconcile, hdel, reconcileNormal, hfin, addFinalizer]
  · intro hdel
    constructor
    · intro e calls hd
      constructor <;> simp [reconcile, hdel, reconcileDelete, hd]
    · intro calls hd
      constructor <;>
        simp [reconcile, hdel, reconcileDelete, hd, removeFinalizer]

/-- A machine document before its first pass: no finalizer yet. -/
def machineNew : MachineObj :=
  { machineFresh with finalizers := [] }

/-- A provisioned machine marked for deletion. -/
def machineDeleting : MachineObj :=
  { machineProvisioned with deletionRequested := true }

/-- A machine marked for deletion whose provider spec is absent, so its
Delete call fails. -/
def machineDeletingBadSpec : MachineObj :=
  { machineNoSpec with deletionRequested := true }

theorem C7_finalizer_protocol_witness :
    reconcile envDeleteOK machineNew =
      { machine := addFinalizer machineNew, requeue := true
        requeueAfterSec := 0, err := none, actuatorOps := []
        remoteCalls := [] } ∧
    (reconcile envDeleteOK machineDeletingBadSpec).err =
      some "failed to get provider spec: providerSpec.value not found" ∧
    (reconcile envDeleteOK machineDeletingBadSpec).machine.finalizers =
      machineDeletingBadSpec.finalizers ∧
    (reconcile envDeleteOK machineDeleting).err = none ∧
    (reconcile envDeleteOK machineDeleting).machine.finalizers =
      machineDeleting.finalizers.filter (· ≠ machineFinalizer) :=
  ⟨((C7_finalizer_protocol envDeleteOK machineNew).1 rfl (by decide)).1,
   (((C7_finalizer_protocol envDeleteOK machineDeletingBadSpec).2 rfl).1
     "failed to get provider spec: providerSpec.value not found" [] rfl).1,
   (((C7_finalizer_protocol envDeleteOK machineDeletingBadSpec).2 rfl).1
     "failed to get provider spec: providerSpec.value not found" [] rfl).2,
   (((C7_finalizer_protocol envDeleteOK machineDeleting).2 rfl).2
     [.deleteInstance (gostr "test-org") uuidA] rfl).1,
   (((C7_finalizer_protocol envDeleteOK machineDeleting).2 rfl).2
     [.deleteInstance (gostr "test-org") uuidA] rfl).2⟩
